import Mathlib

/-!
Shallow embedding of the payment lifecycle controller of
`src/pay/components/PayProvider.tsx`: the lifecycle data model, the
`handleSubmit` flow (try block plus catch block), and the two
asynchronous side transitions (the pending echo driven by the
batch-submission status and the receipt-driven success transition),
together with theorems checking the specification's claims about them.

Collaborator services (wallet connection, contract hydration, chain
switch, batch submission) are modelled as an environment of oracles
whose results are fixed inputs of the embedded functions; a thrown
JavaScript exception is modelled as an `Except.error` outcome.
-/

namespace PayLifecycle

/-- Status names of the payment lifecycle (`PAY_LIFECYCLESTATUS`). -/
inductive StatusName where
  | INIT
  | PENDING
  | SUCCESS
  | ERROR
deriving DecidableEq, Repr

/-- Error codes of the payment lifecycle (`PayErrorCode`). -/
inductive PayErrorCode where
  | INSUFFICIENT_BALANCE
  | USER_REJECTED_ERROR
  | UNEXPECTED_ERROR
deriving DecidableEq, Repr

/-- An on-chain transaction receipt, kept opaque up to its hash. -/
structure Receipt where
  transactionHash : String
deriving DecidableEq, Repr

/-- A lifecycle status: a tagged value pairing a status name with the
status-specific data payload carried by the source
(`SUCCESS` carries `transactionReceipts`, `chargeId`, `receiptUrl`;
`ERROR` carries `code`, `error`, `message`). -/
inductive LifecycleStatus where
  | INIT
  | PENDING
  | SUCCESS (transactionReceipts : List Receipt) (chargeId : String) (receiptUrl : String)
  | ERROR (code : PayErrorCode) (error : String) (message : String)
deriving DecidableEq, Repr

/-- `lifecycleStatus.statusName`. -/
def LifecycleStatus.statusName : LifecycleStatus → StatusName
  | .INIT => .INIT
  | .PENDING => .PENDING
  | .SUCCESS _ _ _ => .SUCCESS
  | .ERROR _ _ _ => .ERROR

/-- `lifecycleStatus.statusData?.code`, present only on `ERROR`. -/
def LifecycleStatus.errorCode : LifecycleStatus → Option PayErrorCode
  | .ERROR c _ _ => some c
  | _ => none

/-- A thrown/reported collaborator error. `name` and `message` are the
JavaScript `Error` fields; `classifiedUserRejected` abstracts the verdict
of the dedicated rejection-classifier predicate on this error value. -/
structure Err where
  name : String
  message : String
  classifiedUserRejected : Bool
deriving DecidableEq, Repr

/-- The receipt URL template of `PayProvider.tsx` (lines 125 and 136). -/
def commerceReceiptUrl (chargeId : String) : String :=
  "https://commerce.coinbase.com/pay/" ++ chargeId ++ "/receipt"

/-- The external funding URL opened on the insufficient-balance replay
(`PayProvider.tsx` line 149). -/
def fundingUrl : String := "https://keys.coinbase.com/fund"

/-- The required target chain (`base.id` from viem). -/
def baseChainId : Nat := 8453

/-- Modelled from the spec: the generic user-facing error message
(`GENERIC_ERROR_MESSAGE` from `src/pay/constants`, not under `src/`). -/
def GENERIC_ERROR_MESSAGE : String := "Something went wrong. Please try again."

/-- Modelled from the spec: the fixed no-connected-address message
(`NO_CONNECTED_ADDRESS_ERROR` from `src/pay/constants`, not under `src/`). -/
def NO_CONNECTED_ADDRESS_ERROR : String := "No connected address."

/-- Modelled from the spec: the fixed no-contracts message
(`NO_CONTRACTS_ERROR` from `src/pay/constants`, not under `src/`). -/
def NO_CONTRACTS_ERROR : String := "No contracts are available."

/-- Modelled from the spec: the fixed user-rejection message
(`USER_REJECTED_ERROR` from `src/pay/constants`, not under `src/`). -/
def USER_REJECTED_ERROR : String := "Request denied."

/-- Modelled from the spec: the fixed insufficient-balance error detail
(`PAY_INSUFFICIENT_BALANCE_ERROR` from `src/pay/constants`, not under
`src/`). -/
def PAY_INSUFFICIENT_BALANCE_ERROR : String := "User has insufficient balance."

/-- Modelled from the spec: the insufficient-balance message template,
parameterized by the required price
(`PAY_INSUFFICIENT_BALANCE_ERROR_MESSAGE` from `src/pay/constants`, not
under `src/`); the price is interpolated into the fixed template. -/
def PAY_INSUFFICIENT_BALANCE_ERROR_MESSAGE (priceInUSDC : String) : String :=
  "You need at least " ++ priceInUSDC ++
    " USDC to continue with this transaction."

/-- Modelled from the spec: the dedicated rejection-classifier predicate
(`isUserRejectedRequestError` from `src/transaction/utils`, not under
`src/`), abstracted as the classifier verdict carried on the error value. -/
def isUserRejectedRequestError (e : Err) : Bool := e.classifiedUserRejected

/-- Whether `pat` occurs as a contiguous run inside the second list:
model of JavaScript `String.prototype.includes`. -/
def charsInfixOf (pat : List Char) : List Char → Bool
  | [] => pat.isEmpty
  | s@(_ :: rest) => pat.isPrefixOf s || charsInfixOf pat rest

/-- The message pattern test of the catch block (`PayProvider.tsx`
line 245): the error message contains "User denied connection request". -/
def messageIncludesDenial (e : Err) : Bool :=
  charsInfixOf "User denied connection request".data e.message.data

/-- Model of `JSON.stringify(error)` on the embedded error values
(`PayProvider.tsx` line 259). -/
def jsonStringify (e : Err) : String :=
  "\x7b\"name\":\"" ++ e.name ++ "\",\"message\":\"" ++ e.message ++ "\"\x7d"

/-- The controller's per-session state: the lifecycle status plus the
session fields `chargeId`, `transactionId` and `errorMessage`. -/
structure St where
  lifecycleStatus : LifecycleStatus
  chargeId : String
  transactionId : String
  errorMessage : String
deriving DecidableEq, Repr

/-- Modelled from the spec: `updateLifecycleStatus` from the
`useLifecycleStatus` hook (`src/pay/hooks/useLifecycleStatus`, not under
`src/`): per the data model a `LifecycleStatus` is a single tagged value
and exactly one status is active at a time, so an update replaces the
stored status with the given one. -/
def updateLifecycleStatus (st : St) (s : LifecycleStatus) : St :=
  { st with lifecycleStatus := s }

/-- A call payload for the batch-submission service, kept opaque. -/
abbrev Contract := String

/-- Result of the connection service (`connectAsync`). -/
structure ConnectRes where
  accounts : List String
  chainId : Nat
deriving DecidableEq, Repr

/-- Result of the contract-hydration service (`fetchContracts`). -/
structure FetchRes where
  contracts : Option (List Contract)
  chargeId : String
  insufficientBalance : Bool
  priceInUSDC : Option String
  error : Option Err
deriving DecidableEq, Repr

/-- The environment of collaborator behaviours for one `submit()`
attempt: the account snapshot and, for each service, its outcome
(`Except.error` models a thrown exception). -/
structure Env where
  address : Option String
  chainId : Nat
  isConnected : Bool
  isSmartWallet : Bool
  connectAsync : Except Err ConnectRes
  fetchContracts : String → Except Err FetchRes
  switchChainAsync : Nat → Except Err Unit
  writeContractsAsync : List Contract → Except Err String

/-- Observable events of a `submit()` attempt: collaborator invocations
and `window.open` side effects. -/
inductive Ev where
  | connectCall
  | hydrateCall (address : String)
  | switchCall (chainId : Nat)
  | writeCall (contracts : List Contract)
  | openUrl (url : String)
deriving DecidableEq, Repr

/-- Outcome of the try block: the state after its mutations, the events
performed, and the exception escaping it, if any. -/
structure SubmitOut where
  state : St
  events : List Ev
  thrown : Option Err
deriving DecidableEq, Repr

/-- Outcome of a whole `submit()` call: no exception component, since the
catch block converts every escaping exception. -/
structure SubmitRes where
  state : St
  events : List Ev
deriving DecidableEq, Repr

/-- Status values of the `useWriteContracts` mutation observed by the
pending-echo effect. -/
inductive WriteStatus where
  | idle
  | pending
  | success
  | error
deriving DecidableEq, Repr

/-- The connection guard of `handleSubmit` (`PayProvider.tsx` line 158):
`!isConnected || !isSmartWallet`. -/
def needConnect (env : Env) : Bool := !env.isConnected || !env.isSmartWallet

/-- Events recorded for the connection step: the connection service is
invoked exactly when `needConnect`. -/
def connectEvents (env : Env) : List Ev :=
  if needConnect env then [Ev.connectCall] else []

/-- Address/chain resolution (`PayProvider.tsx` lines 156-166): keep the
account snapshot, or connect and take the first returned account and its
chain. -/
def resolveConnection (env : Env) : Except Err (Option String × Nat) :=
  if needConnect env then
    match env.connectAsync with
    | Except.error e => Except.error e
    | Except.ok r => Except.ok (r.accounts.head?, r.chainId)
  else
    Except.ok (env.address, env.chainId)

/-- The contracts-presence check and the batch submission
(`PayProvider.tsx` lines 225-242). -/
def submitContracts (env : Env) (st : St) (evs : List Ev)
    (contracts : Option (List Contract)) : SubmitOut :=
  match contracts with
  | some (c :: cs) =>
    match env.writeContractsAsync (c :: cs) with
    | Except.error e =>
      { state := st, events := evs ++ [Ev.writeCall (c :: cs)], thrown := some e }
    | Except.ok transactionId =>
      { state := { st with transactionId := transactionId },
        events := evs ++ [Ev.writeCall (c :: cs)], thrown := none }
  | _ =>
    { state := { st with
        errorMessage := GENERIC_ERROR_MESSAGE,
        lifecycleStatus := LifecycleStatus.ERROR PayErrorCode.UNEXPECTED_ERROR
          NO_CONTRACTS_ERROR NO_CONTRACTS_ERROR },
      events := evs, thrown := none }

/-- The balance check (`PayProvider.tsx` lines 211-223) followed by the
contracts check and submission. -/
def balanceCheckAndSubmit (env : Env) (st : St) (evs : List Ev)
    (fr : FetchRes) : SubmitOut :=
  match fr.insufficientBalance, fr.priceInUSDC with
  | true, some priceInUSDC =>
    { state := { st with
        errorMessage := PAY_INSUFFICIENT_BALANCE_ERROR_MESSAGE priceInUSDC,
        lifecycleStatus := LifecycleStatus.ERROR PayErrorCode.INSUFFICIENT_BALANCE
          PAY_INSUFFICIENT_BALANCE_ERROR
          (PAY_INSUFFICIENT_BALANCE_ERROR_MESSAGE priceInUSDC) },
      events := evs, thrown := none }
  | _, _ => submitContracts env st evs fr.contracts

/-- After a hydration result without error: store the charge id
(`setChargeId`, `PayProvider.tsx` line 204), switch chain when the
connected chain is not the target (lines 206-209), then the balance and
contracts checks. -/
def afterHydration (env : Env) (st : St) (evs : List Ev)
    (connectedChainId : Nat) (fr : FetchRes) : SubmitOut :=
  let st1 := { st with chargeId := fr.chargeId }
  if connectedChainId ≠ baseChainId then
    match env.switchChainAsync baseChainId with
    | Except.error e =>
      { state := st1, events := evs ++ [Ev.switchCall baseChainId], thrown := some e }
    | Except.ok _ =>
      balanceCheckAndSubmit env st1 (evs ++ [Ev.switchCall baseChainId]) fr
  else
    balanceCheckAndSubmit env st1 evs fr

/-- A fresh submit attempt (`PayProvider.tsx` lines 156-242): resolve
connection, guard against a missing address, hydrate, handle a reported
hydration error, then continue with `afterHydration`. -/
def freshAttempt (env : Env) (st : St) : SubmitOut :=
  match resolveConnection env with
  | Except.error e => { state := st, events := connectEvents env, thrown := some e }
  | Except.ok (none, _) =>
    { state := { st with
        errorMessage := GENERIC_ERROR_MESSAGE,
        lifecycleStatus := LifecycleStatus.ERROR PayErrorCode.UNEXPECTED_ERROR
          NO_CONNECTED_ADDRESS_ERROR NO_CONNECTED_ADDRESS_ERROR },
      events := connectEvents env, thrown := none }
  | Except.ok (some connectedAddress, connectedChainId) =>
    match env.fetchContracts connectedAddress with
    | Except.error e =>
      { state := st, events := connectEvents env ++ [Ev.hydrateCall connectedAddress],
        thrown := some e }
    | Except.ok fr =>
      match fr.error with
      | some hydrationError =>
        { state := { st with
            errorMessage := GENERIC_ERROR_MESSAGE,
            lifecycleStatus := LifecycleStatus.ERROR PayErrorCode.UNEXPECTED_ERROR
              hydrationError.name hydrationError.message },
          events := connectEvents env ++ [Ev.hydrateCall connectedAddress],
          thrown := none }
      | none =>
        afterHydration env st (connectEvents env ++ [Ev.hydrateCall connectedAddress])
          connectedChainId fr

/-- The body of the `try` block of `handleSubmit` (`PayProvider.tsx`
lines 132-242): the `SUCCESS` replay, the insufficient-balance funding
replay, or a fresh attempt. -/
def tryBlock (env : Env) (st : St) : SubmitOut :=
  if st.lifecycleStatus.statusName = StatusName.SUCCESS then
    { state := st, events := [Ev.openUrl (commerceReceiptUrl st.chargeId)],
      thrown := none }
  else if st.lifecycleStatus.statusName = StatusName.ERROR ∧
      st.lifecycleStatus.errorCode = some PayErrorCode.INSUFFICIENT_BALANCE then
    { state := st, events := [Ev.openUrl fundingUrl], thrown := none }
  else freshAttempt env st

/-- The classification of the catch block (`PayProvider.tsx`
lines 244-246): message pattern match or classifier verdict. -/
def isUserRejectedCatch (e : Err) : Bool :=
  messageIncludesDenial e || isUserRejectedRequestError e

/-- The catch block of `handleSubmit` (`PayProvider.tsx` lines 243-262):
classify the exception, set the error message, and transition to `ERROR`
with the raw error serialized into the payload. -/
def catchBlock (st : St) (evs : List Ev) (e : Err) : SubmitRes :=
  let errorMessage :=
    if isUserRejectedCatch e then USER_REJECTED_ERROR else GENERIC_ERROR_MESSAGE
  let errorCode :=
    if isUserRejectedCatch e then PayErrorCode.USER_REJECTED_ERROR
    else PayErrorCode.UNEXPECTED_ERROR
  { state := { st with
      errorMessage := errorMessage,
      lifecycleStatus :=
        LifecycleStatus.ERROR errorCode (jsonStringify e) errorMessage },
    events := evs }

/-- `handleSubmit` (`PayProvider.tsx` lines 131-263): the try block with
every escaping exception converted by the catch block; the result type
has no exception component, so nothing propagates to the caller. -/
def handleSubmit (env : Env) (st : St) : SubmitRes :=
  let o := tryBlock env st
  match o.thrown with
  | none => { state := o.state, events := o.events }
  | some e => catchBlock o.state o.events e

/-- The pending-echo effect (`PayProvider.tsx` lines 106-113): when the
batch-submission mutation reports `pending`, set the lifecycle status to
`PENDING`. -/
def pendingEchoEffect (status : WriteStatus) (st : St) : St :=
  if status = WriteStatus.pending then
    updateLifecycleStatus st LifecycleStatus.PENDING
  else st

/-- The receipt-driven success effect (`PayProvider.tsx` lines 116-128):
once a receipt exists, set `SUCCESS` with the receipt, the stored charge
id and the derived receipt URL. -/
def receiptEffect (receipt : Option Receipt) (st : St) : St :=
  match receipt with
  | none => st
  | some r =>
    updateLifecycleStatus st
      (LifecycleStatus.SUCCESS [r] st.chargeId (commerceReceiptUrl st.chargeId))

/-! Concrete fixtures used to evaluate the embedding. -/

/-- A hydration result with one contract and no error. -/
def okFetchRes : FetchRes :=
  { contracts := some ["call-1"], chargeId := "charge-1",
    insufficientBalance := false, priceInUSDC := none, error := none }

/-- A connected smart-wallet environment on the target chain whose
collaborators all succeed. -/
def baseEnv : Env :=
  { address := some "0xabc", chainId := 8453, isConnected := true,
    isSmartWallet := true,
    connectAsync := Except.ok { accounts := ["0xabc"], chainId := 8453 },
    fetchContracts := fun _ => Except.ok okFetchRes,
    switchChainAsync := fun _ => Except.ok (),
    writeContractsAsync := fun _ => Except.ok "txn-1" }

/-- The controller state at construction. -/
def initSt : St :=
  { lifecycleStatus := LifecycleStatus.INIT, chargeId := "", transactionId := "",
    errorMessage := "" }

/-- A hydration-service error report. -/
def errHyd : Err :=
  { name := "HttpError", message := "hydration failed",
    classifiedUserRejected := false }

/-- Hydration result that reports an error together with a charge id. -/
def frC1 : FetchRes :=
  { contracts := some ["call-1"], chargeId := "charge-123",
    insufficientBalance := false, priceInUSDC := none, error := some errHyd }

/-- Environment whose hydration reports an error. -/
def envC1 : Env := { baseEnv with fetchContracts := fun _ => Except.ok frC1 }

/-- Hydration result reporting an error and also an insufficient balance
with a present price. -/
def frC2x : FetchRes :=
  { contracts := some ["call-1"], chargeId := "c2x",
    insufficientBalance := true, priceInUSDC := some "25.00",
    error := some errHyd }

/-- Environment for the hydration-error-preempts-balance-check input. -/
def envC2x : Env := { baseEnv with fetchContracts := fun _ => Except.ok frC2x }

/-- Hydration result with insufficient balance and a present price. -/
def frC2w : FetchRes :=
  { contracts := some ["call-1"], chargeId := "c2",
    insufficientBalance := true, priceInUSDC := some "25.00", error := none }

/-- Environment whose hydration reports insufficient balance with price. -/
def envC2w : Env := { baseEnv with fetchContracts := fun _ => Except.ok frC2w }

/-- A state in `ERROR`/`INSUFFICIENT_BALANCE`, as produced by the balance
check. -/
def stIBFix : St :=
  { lifecycleStatus :=
      LifecycleStatus.ERROR PayErrorCode.INSUFFICIENT_BALANCE
        PAY_INSUFFICIENT_BALANCE_ERROR
        (PAY_INSUFFICIENT_BALANCE_ERROR_MESSAGE "25.00"),
    chargeId := "c2", transactionId := "",
    errorMessage := PAY_INSUFFICIENT_BALANCE_ERROR_MESSAGE "25.00" }

/-- A state in `SUCCESS` holding a receipt. -/
def stSuccessFix : St :=
  { lifecycleStatus :=
      LifecycleStatus.SUCCESS [{ transactionHash := "0xaaa" }] "charge-9"
        (commerceReceiptUrl "charge-9"),
    chargeId := "charge-9", transactionId := "txn-9", errorMessage := "" }

/-- A state in `ERROR`/`UNEXPECTED_ERROR`. -/
def stErrorFix : St :=
  { lifecycleStatus :=
      LifecycleStatus.ERROR PayErrorCode.UNEXPECTED_ERROR "SomeError"
        GENERIC_ERROR_MESSAGE,
    chargeId := "c9", transactionId := "t9",
    errorMessage := GENERIC_ERROR_MESSAGE }

/-- Hydration result with an empty contracts list and an insufficient
balance with a present price. -/
def frC4x : FetchRes :=
  { contracts := some [], chargeId := "c4x",
    insufficientBalance := true, priceInUSDC := some "12.50", error := none }

/-- Environment for the balance-check-preempts-contracts-check input. -/
def envC4x : Env := { baseEnv with fetchContracts := fun _ => Except.ok frC4x }

/-- Hydration result with an empty contracts list and sufficient balance. -/
def frC4w : FetchRes :=
  { contracts := some [], chargeId := "c4",
    insufficientBalance := false, priceInUSDC := none, error := none }

/-- Environment whose hydration returns an empty contracts list. -/
def envC4w : Env := { baseEnv with fetchContracts := fun _ => Except.ok frC4w }

/-- An error carrying the wallet-denial message. -/
def errDeny : Err :=
  { name := "Error", message := "User denied connection request",
    classifiedUserRejected := false }

/-- A disconnected environment whose connection attempt throws the
denial error. -/
def envC5 : Env :=
  { baseEnv with isConnected := false, connectAsync := Except.error errDeny }

/-- Hydration result with insufficient balance but no price present. -/
def frC10 : FetchRes :=
  { contracts := some ["call-1"], chargeId := "c10",
    insufficientBalance := true, priceInUSDC := none, error := none }

/-- Environment whose hydration reports insufficient balance without a
price. -/
def envC10 : Env := { baseEnv with fetchContracts := fun _ => Except.ok frC10 }

/-! Helper lemmas shared by the claim theorems. -/

/-- On a fresh attempt (status neither `SUCCESS` nor
`ERROR`/`INSUFFICIENT_BALANCE`), the try block runs `freshAttempt`. -/
theorem tryBlock_fresh (env : Env) (st : St)
    (hS : st.lifecycleStatus.statusName ≠ StatusName.SUCCESS)
    (hE : st.lifecycleStatus.errorCode ≠ some PayErrorCode.INSUFFICIENT_BALANCE) :
    tryBlock env st = freshAttempt env st := by
  unfold tryBlock
  rw [if_neg hS, if_neg fun h => hE h.2]

/-- When the connection resolves to an address and hydration returns
without error, the fresh attempt continues with `afterHydration`. -/
theorem freshAttempt_hydrated (env : Env) (st : St) (a : String) (cid : Nat)
    (fr : FetchRes)
    (hConn : resolveConnection env = Except.ok (some a, cid))
    (hFetch : env.fetchContracts a = Except.ok fr)
    (hNoErr : fr.error = none) :
    freshAttempt env st =
      afterHydration env st (connectEvents env ++ [Ev.hydrateCall a]) cid fr := by
  simp only [freshAttempt, hConn, hFetch, hNoErr]

/-- When hydration reports an error, the fresh attempt aborts with
`ERROR`/`UNEXPECTED_ERROR` built from the error, without storing the
charge id. -/
theorem freshAttempt_hydration_error (env : Env) (st : St) (a : String)
    (cid : Nat) (fr : FetchRes) (e : Err)
    (hConn : resolveConnection env = Except.ok (some a, cid))
    (hFetch : env.fetchContracts a = Except.ok fr)
    (hErr : fr.error = some e) :
    freshAttempt env st =
      { state := { st with
          errorMessage := GENERIC_ERROR_MESSAGE,
          lifecycleStatus := LifecycleStatus.ERROR PayErrorCode.UNEXPECTED_ERROR
            e.name e.message },
        events := connectEvents env ++ [Ev.hydrateCall a], thrown := none } := by
  simp only [freshAttempt, hConn, hFetch, hErr]

/-- When any required chain switch succeeds, `afterHydration` stores the
charge id and continues with the balance check. -/
theorem afterHydration_switch_ok (env : Env) (st : St) (evs : List Ev)
    (cid : Nat) (fr : FetchRes)
    (hSwitch : cid ≠ baseChainId → env.switchChainAsync baseChainId = Except.ok ()) :
    afterHydration env st evs cid fr =
      balanceCheckAndSubmit env { st with chargeId := fr.chargeId }
        (evs ++ (if cid ≠ baseChainId then [Ev.switchCall baseChainId] else []))
        fr := by
  by_cases hc : cid = baseChainId
  · simp [afterHydration, hc]
  · simp [afterHydration, hc, hSwitch hc]

/-- `submitContracts` never changes the stored charge id. -/
theorem submitContracts_state_chargeId (env : Env) (st : St) (evs : List Ev)
    (cs : Option (List Contract)) :
    (submitContracts env st evs cs).state.chargeId = st.chargeId := by
  unfold submitContracts
  split
  · split <;> rfl
  · rfl

/-- `balanceCheckAndSubmit` never changes the stored charge id. -/
theorem balanceCheck_state_chargeId (env : Env) (st : St) (evs : List Ev)
    (fr : FetchRes) :
    (balanceCheckAndSubmit env st evs fr).state.chargeId = st.chargeId := by
  unfold balanceCheckAndSubmit
  split
  · rfl
  · exact submitContracts_state_chargeId env st evs fr.contracts

/-- After `afterHydration` the stored charge id is the hydrated one. -/
theorem afterHydration_state_chargeId (env : Env) (st : St) (evs : List Ev)
    (cid : Nat) (fr : FetchRes) :
    (afterHydration env st evs cid fr).state.chargeId = fr.chargeId := by
  simp only [afterHydration]
  split
  · split
    · rfl
    · rw [balanceCheck_state_chargeId]
  · rw [balanceCheck_state_chargeId]

/-- The catch block keeps the charge id of the state it receives. -/
theorem catchBlock_state_chargeId (st : St) (evs : List Ev) (e : Err) :
    (catchBlock st evs e).state.chargeId = st.chargeId := rfl

/-- `handleSubmit` keeps the charge id produced by the try block. -/
theorem handleSubmit_state_chargeId (env : Env) (st : St) :
    (handleSubmit env st).state.chargeId = (tryBlock env st).state.chargeId := by
  unfold handleSubmit
  cases h : (tryBlock env st).thrown <;> simp [h, catchBlock]

/-- If the try block returns without exception, `handleSubmit` returns
its state and events. -/
theorem handleSubmit_eq_of_tryBlock_none (env : Env) (st st2 : St)
    (evs : List Ev)
    (h : tryBlock env st = { state := st2, events := evs, thrown := none }) :
    handleSubmit env st = { state := st2, events := evs } := by
  unfold handleSubmit
  rw [h]

/-- If the try block throws, `handleSubmit` is the catch block applied to
the partial state and events. -/
theorem handleSubmit_eq_of_tryBlock_some (env : Env) (st st2 : St)
    (evs : List Ev) (e : Err)
    (h : tryBlock env st = { state := st2, events := evs, thrown := some e }) :
    handleSubmit env st = catchBlock st2 evs e := by
  unfold handleSubmit
  rw [h]

/-- The connection step never records a batch-submission call. -/
theorem writeCall_not_mem_connectEvents (env : Env) (cs : List Contract) :
    Ev.writeCall cs ∉ connectEvents env := by
  unfold connectEvents
  split <;> simp

/-- The chain-switch step never records a batch-submission call. -/
theorem writeCall_not_mem_switchEvents (cid : Nat) (cs : List Contract) :
    Ev.writeCall cs ∉
      (if cid ≠ baseChainId then [Ev.switchCall baseChainId] else []) := by
  split <;> simp

/-! Claim theorems. -/

/-- C1 counterexample: on a fresh submit where hydration reports an error
together with charge id "charge-123", the controller's `chargeId` field
stays at its previous value (here the empty string) instead of being
stored; the error path returns before `setChargeId`. -/
theorem chargeId_not_stored_on_hydration_error_cex :
    frC1.chargeId = "charge-123"
    ∧ frC1.error = some errHyd
    ∧ envC1.fetchContracts "0xabc" = Except.ok frC1
    ∧ (handleSubmit envC1 initSt).state.lifecycleStatus.statusName = StatusName.ERROR
    ∧ (handleSubmit envC1 initSt).state.chargeId ≠ "charge-123" := by
  refine ⟨rfl, rfl, rfl, rfl, ?_⟩
  decide

/-- C1 (amended): during a fresh submit attempt in which hydration
returns, the reported charge identifier is stored into the controller's
`chargeId` session field exactly when hydration reports no error; on the
hydration-error path the attempt aborts to `ERROR`/`UNEXPECTED_ERROR`
before storing it, leaving `chargeId` unchanged. -/
theorem chargeId_stored_only_without_hydration_error (env : Env) (st : St)
    (a : String) (cid : Nat) (fr : FetchRes)
    (hS : st.lifecycleStatus.statusName ≠ StatusName.SUCCESS)
    (hE : st.lifecycleStatus.errorCode ≠ some PayErrorCode.INSUFFICIENT_BALANCE)
    (hConn : resolveConnection env = Except.ok (some a, cid))
    (hFetch : env.fetchContracts a = Except.ok fr) :
    (fr.error = none → (handleSubmit env st).state.chargeId = fr.chargeId)
    ∧ (∀ e, fr.error = some e →
        (handleSubmit env st).state.chargeId = st.chargeId
        ∧ (handleSubmit env st).state.lifecycleStatus =
            LifecycleStatus.ERROR PayErrorCode.UNEXPECTED_ERROR e.name e.message) := by
  constructor
  · intro hNoErr
    rw [handleSubmit_state_chargeId, tryBlock_fresh env st hS hE,
      freshAttempt_hydrated env st a cid fr hConn hFetch hNoErr,
      afterHydration_state_chargeId]
  · intro e hErr
    have h1 : tryBlock env st =
        { state := { st with
            errorMessage := GENERIC_ERROR_MESSAGE,
            lifecycleStatus := LifecycleStatus.ERROR PayErrorCode.UNEXPECTED_ERROR
              e.name e.message },
          events := connectEvents env ++ [Ev.hydrateCall a], thrown := none } :=
      (tryBlock_fresh env st hS hE).trans
        (freshAttempt_hydration_error env st a cid fr e hConn hFetch hErr)
    rw [handleSubmit_eq_of_tryBlock_none env st _ _ h1]
    exact ⟨rfl, rfl⟩

/-- C1 witness: the amended theorem evaluated on the concrete
hydration-error environment. -/
theorem chargeId_stored_only_without_hydration_error_witness :
    (handleSubmit envC1 initSt).state.chargeId = initSt.chargeId
    ∧ (handleSubmit envC1 initSt).state.lifecycleStatus =
        LifecycleStatus.ERROR PayErrorCode.UNEXPECTED_ERROR "HttpError"
          "hydration failed" :=
  (chargeId_stored_only_without_hydration_error envC1 initSt "0xabc" 8453 frC1
    (by decide) (by decide) rfl rfl).2 errHyd rfl

/-- C2 counterexample: hydration reports `insufficientBalance=true` with a
present price, but also reports an error; the hydration-error check runs
first, so the status becomes `ERROR`/`UNEXPECTED_ERROR`, not
`ERROR`/`INSUFFICIENT_BALANCE`. -/
theorem insufficient_balance_preempted_by_hydration_error_cex :
    frC2x.insufficientBalance = true
    ∧ frC2x.priceInUSDC = some "25.00"
    ∧ envC2x.fetchContracts "0xabc" = Except.ok frC2x
    ∧ (handleSubmit envC2x initSt).state.lifecycleStatus.errorCode =
        some PayErrorCode.UNEXPECTED_ERROR
    ∧ (handleSubmit envC2x initSt).state.lifecycleStatus.errorCode ≠
        some PayErrorCode.INSUFFICIENT_BALANCE := by
  refine ⟨rfl, rfl, rfl, rfl, ?_⟩
  decide

/-- C2 (amended): on a fresh submit attempt in which hydration reports no
error, any required chain switch completes, and hydration reports
`insufficientBalance=true` with a present price, the status becomes
`ERROR`/`INSUFFICIENT_BALANCE` with the price interpolated into the
message and the batch-submission service is not called; and every submit
invoked while the status is `ERROR`/`INSUFFICIENT_BALANCE` performs only
the funding-page side effect, with no state change and no collaborator
calls. -/
theorem insufficient_balance_abort_and_funding_replay (env : Env) (st : St)
    (a p : String) (cid : Nat) (fr : FetchRes)
    (hS : st.lifecycleStatus.statusName ≠ StatusName.SUCCESS)
    (hE : st.lifecycleStatus.errorCode ≠ some PayErrorCode.INSUFFICIENT_BALANCE)
    (hConn : resolveConnection env = Except.ok (some a, cid))
    (hFetch : env.fetchContracts a = Except.ok fr)
    (hNoErr : fr.error = none)
    (hSwitch : cid ≠ baseChainId → env.switchChainAsync baseChainId = Except.ok ())
    (hIB : fr.insufficientBalance = true)
    (hP : fr.priceInUSDC = some p) :
    ((handleSubmit env st).state.lifecycleStatus =
        LifecycleStatus.ERROR PayErrorCode.INSUFFICIENT_BALANCE
          PAY_INSUFFICIENT_BALANCE_ERROR (PAY_INSUFFICIENT_BALANCE_ERROR_MESSAGE p))
    ∧ (handleSubmit env st).state.errorMessage =
        PAY_INSUFFICIENT_BALANCE_ERROR_MESSAGE p
    ∧ List.IsInfix p.data (PAY_INSUFFICIENT_BALANCE_ERROR_MESSAGE p).data
    ∧ (∀ cs, Ev.writeCall cs ∉ (handleSubmit env st).events)
    ∧ (∀ env2 st2, st2.lifecycleStatus.statusName = StatusName.ERROR →
        st2.lifecycleStatus.errorCode = some PayErrorCode.INSUFFICIENT_BALANCE →
        handleSubmit env2 st2 = { state := st2, events := [Ev.openUrl fundingUrl] }) := by
  have h1 : tryBlock env st =
      balanceCheckAndSubmit env { st with chargeId := fr.chargeId }
        (connectEvents env ++ [Ev.hydrateCall a] ++
          (if cid ≠ baseChainId then [Ev.switchCall baseChainId] else [])) fr :=
    (tryBlock_fresh env st hS hE).trans
      ((freshAttempt_hydrated env st a cid fr hConn hFetch hNoErr).trans
        (afterHydration_switch_ok env st _ cid fr hSwitch))
  have h2 : tryBlock env st =
      { state := { st with
          chargeId := fr.chargeId,
          errorMessage := PAY_INSUFFICIENT_BALANCE_ERROR_MESSAGE p,
          lifecycleStatus := LifecycleStatus.ERROR PayErrorCode.INSUFFICIENT_BALANCE
            PAY_INSUFFICIENT_BALANCE_ERROR
            (PAY_INSUFFICIENT_BALANCE_ERROR_MESSAGE p) },
        events := connectEvents env ++ [Ev.hydrateCall a] ++
          (if cid ≠ baseChainId then [Ev.switchCall baseChainId] else []),
        thrown := none } := by
    rw [h1]
    simp only [balanceCheckAndSubmit, hIB, hP]
  have h3 := handleSubmit_eq_of_tryBlock_none env st _ _ h2
  refine ⟨by rw [h3], by rw [h3], ?_, ?_, ?_⟩
  · exact ⟨"You need at least ".data,
      " USDC to continue with this transaction.".data, rfl⟩
  · intro cs hmem
    rw [h3] at hmem
    rcases List.mem_append.1 hmem with h | h
    · rcases List.mem_append.1 h with h4 | h4
      · exact writeCall_not_mem_connectEvents env cs h4
      · simp at h4
    · exact writeCall_not_mem_switchEvents cid cs h
  · intro env2 st2 hErr2 hCode2
    have htb : tryBlock env2 st2 =
        { state := st2, events := [Ev.openUrl fundingUrl], thrown := none } := by
      unfold tryBlock
      rw [if_neg (by rw [hErr2]; decide), if_pos ⟨hErr2, hCode2⟩]
    exact handleSubmit_eq_of_tryBlock_none env2 st2 _ _ htb

/-- C2 witness: the amended theorem evaluated on the concrete
insufficient-balance environment, including the funding replay from the
resulting state. -/
theorem insufficient_balance_abort_and_funding_replay_witness :
    (handleSubmit envC2w initSt).state.lifecycleStatus =
      LifecycleStatus.ERROR PayErrorCode.INSUFFICIENT_BALANCE
        PAY_INSUFFICIENT_BALANCE_ERROR (PAY_INSUFFICIENT_BALANCE_ERROR_MESSAGE "25.00")
    ∧ Ev.writeCall ["call-1"] ∉ (handleSubmit envC2w initSt).events
    ∧ handleSubmit envC2w stIBFix =
        { state := stIBFix, events := [Ev.openUrl fundingUrl] } := by
  have h := insufficient_balance_abort_and_funding_replay envC2w initSt
    "0xabc" "25.00" 8453 frC2w (by decide) (by decide) rfl rfl rfl
    (fun hc => absurd rfl hc) rfl rfl
  exact ⟨h.1, h.2.2.2.1 ["call-1"], h.2.2.2.2 envC2w stIBFix rfl rfl⟩

/-- C3 (confirmed): every submit invoked while the status is `SUCCESS`
returns the state unchanged (lifecycle status and all session fields) and
performs only the open-receipt-URL side effect: no connection, hydration,
chain-switch or batch-submission event occurs. -/
theorem success_replay_no_state_change (env : Env) (st : St)
    (h : st.lifecycleStatus.statusName = StatusName.SUCCESS) :
    handleSubmit env st =
      { state := st, events := [Ev.openUrl (commerceReceiptUrl st.chargeId)] } := by
  apply handleSubmit_eq_of_tryBlock_none
  unfold tryBlock
  rw [if_pos h]

/-- C3 witness: the theorem evaluated on a concrete `SUCCESS` state. -/
theorem success_replay_no_state_change_witness :
    handleSubmit baseEnv stSuccessFix =
      { state := stSuccessFix,
        events := [Ev.openUrl (commerceReceiptUrl "charge-9")] } :=
  success_replay_no_state_change baseEnv stSuccessFix rfl

/-- C4 counterexample: hydration returns an empty contracts list but also
reports insufficient balance with a present price; the balance check runs
before the contracts check, so the status becomes
`ERROR`/`INSUFFICIENT_BALANCE`, not `ERROR`/`UNEXPECTED_ERROR` with the
no-contracts message. -/
theorem no_contracts_preempted_by_balance_check_cex :
    frC4x.contracts = some []
    ∧ envC4x.fetchContracts "0xabc" = Except.ok frC4x
    ∧ (handleSubmit envC4x initSt).state.lifecycleStatus.errorCode =
        some PayErrorCode.INSUFFICIENT_BALANCE
    ∧ (handleSubmit envC4x initSt).state.lifecycleStatus ≠
        LifecycleStatus.ERROR PayErrorCode.UNEXPECTED_ERROR NO_CONTRACTS_ERROR
          NO_CONTRACTS_ERROR := by
  refine ⟨rfl, rfl, rfl, ?_⟩
  decide

/-- C4 (amended): on a fresh submit attempt in which hydration reports no
error, the insufficient-balance-with-price condition does not hold, any
required chain switch completes, and the contracts list is empty or
absent, the status becomes `ERROR`/`UNEXPECTED_ERROR` with the fixed
no-contracts message and the batch-submission service is never called in
that attempt. -/
theorem no_contracts_error_abort (env : Env) (st : St) (a : String)
    (cid : Nat) (fr : FetchRes)
    (hS : st.lifecycleStatus.statusName ≠ StatusName.SUCCESS)
    (hE : st.lifecycleStatus.errorCode ≠ some PayErrorCode.INSUFFICIENT_BALANCE)
    (hConn : resolveConnection env = Except.ok (some a, cid))
    (hFetch : env.fetchContracts a = Except.ok fr)
    (hNoErr : fr.error = none)
    (hB : fr.insufficientBalance = false ∨ fr.priceInUSDC = none)
    (hSwitch : cid ≠ baseChainId → env.switchChainAsync baseChainId = Except.ok ())
    (hC : fr.contracts = none ∨ fr.contracts = some []) :
    (handleSubmit env st).state.lifecycleStatus =
      LifecycleStatus.ERROR PayErrorCode.UNEXPECTED_ERROR NO_CONTRACTS_ERROR
        NO_CONTRACTS_ERROR
    ∧ (handleSubmit env st).state.errorMessage = GENERIC_ERROR_MESSAGE
    ∧ ∀ cs, Ev.writeCall cs ∉ (handleSubmit env st).events := by
  have h1 : tryBlock env st =
      balanceCheckAndSubmit env { st with chargeId := fr.chargeId }
        (connectEvents env ++ [Ev.hydrateCall a] ++
          (if cid ≠ baseChainId then [Ev.switchCall baseChainId] else [])) fr :=
    (tryBlock_fresh env st hS hE).trans
      ((freshAttempt_hydrated env st a cid fr hConn hFetch hNoErr).trans
        (afterHydration_switch_ok env st _ cid fr hSwitch))
  have h2 : balanceCheckAndSubmit env { st with chargeId := fr.chargeId }
        (connectEvents env ++ [Ev.hydrateCall a] ++
          (if cid ≠ baseChainId then [Ev.switchCall baseChainId] else [])) fr =
      submitContracts env { st with chargeId := fr.chargeId }
        (connectEvents env ++ [Ev.hydrateCall a] ++
          (if cid ≠ baseChainId then [Ev.switchCall baseChainId] else []))
        fr.contracts := by
    rcases hB with hB | hB
    · simp only [balanceCheckAndSubmit, hB]
    · cases hb : fr.insufficientBalance <;>
        simp only [balanceCheckAndSubmit, hb, hB]
  have h3 : tryBlock env st =
      { state := { st with
          chargeId := fr.chargeId,
          errorMessage := GENERIC_ERROR_MESSAGE,
          lifecycleStatus := LifecycleStatus.ERROR PayErrorCode.UNEXPECTED_ERROR
            NO_CONTRACTS_ERROR NO_CONTRACTS_ERROR },
        events := connectEvents env ++ [Ev.hydrateCall a] ++
          (if cid ≠ baseChainId then [Ev.switchCall baseChainId] else []),
        thrown := none } := by
    rw [h1, h2]
    rcases hC with hC | hC <;> simp only [submitContracts, hC]
  have h4 := handleSubmit_eq_of_tryBlock_none env st _ _ h3
  refine ⟨by rw [h4], by rw [h4], ?_⟩
  intro cs hmem
  rw [h4] at hmem
  rcases List.mem_append.1 hmem with h | h
  · rcases List.mem_append.1 h with h5 | h5
    · exact writeCall_not_mem_connectEvents env cs h5
    · simp at h5
  · exact writeCall_not_mem_switchEvents cid cs h

/-- C4 witness: the amended theorem evaluated on a concrete environment
whose hydration returns an empty contracts list. -/
theorem no_contracts_error_abort_witness :
    (handleSubmit envC4w initSt).state.lifecycleStatus =
      LifecycleStatus.ERROR PayErrorCode.UNEXPECTED_ERROR NO_CONTRACTS_ERROR
        NO_CONTRACTS_ERROR
    ∧ Ev.writeCall ["call-1"] ∉ (handleSubmit envC4w initSt).events := by
  have h := no_contracts_error_abort envC4w initSt "0xabc" 8453 frC4w
    (by decide) (by decide) rfl rfl rfl (Or.inl rfl)
    (fun hc => absurd rfl hc) (Or.inr rfl)
  exact ⟨h.1, h.2.2 ["call-1"]⟩

/-- C5 (confirmed): every exception escaping the try block is converted
into an `ERROR` status whose payload serializes the raw error; the code is
`USER_REJECTED_ERROR` with the fixed user-rejection message exactly when
the exception's message contains the denial pattern or the
rejection-classifier predicate accepts it, and `UNEXPECTED_ERROR` with the
generic message otherwise. -/
theorem exception_classified_error (env : Env) (st : St) (e : Err)
    (h : (tryBlock env st).thrown = some e) :
    (handleSubmit env st).state.lifecycleStatus =
      LifecycleStatus.ERROR
        (if isUserRejectedCatch e then PayErrorCode.USER_REJECTED_ERROR
         else PayErrorCode.UNEXPECTED_ERROR)
        (jsonStringify e)
        (if isUserRejectedCatch e then USER_REJECTED_ERROR
         else GENERIC_ERROR_MESSAGE)
    ∧ (handleSubmit env st).state.lifecycleStatus.statusName = StatusName.ERROR
    ∧ (isUserRejectedCatch e = true ↔
        (messageIncludesDenial e = true ∨ isUserRejectedRequestError e = true)) := by
  have he : handleSubmit env st =
      catchBlock (tryBlock env st).state (tryBlock env st).events e := by
    simp only [handleSubmit]
    rw [h]
  refine ⟨?_, ?_, ?_⟩
  · rw [he]
    cases hc : isUserRejectedCatch e <;> simp [catchBlock, hc]
  · rw [he]
    cases hc : isUserRejectedCatch e <;>
      simp [catchBlock, hc, LifecycleStatus.statusName]
  · simp [isUserRejectedCatch, Bool.or_eq_true]

/-- C5 witness: the theorem evaluated on a concrete environment whose
connection attempt throws the wallet-denial error. -/
theorem exception_classified_error_witness :
    (handleSubmit envC5 initSt).state.lifecycleStatus =
      LifecycleStatus.ERROR PayErrorCode.USER_REJECTED_ERROR
        (jsonStringify errDeny) USER_REJECTED_ERROR
    ∧ (messageIncludesDenial errDeny = true ∨
        isUserRejectedRequestError errDeny = true) := by
  have h := exception_classified_error envC5 initSt errDeny rfl
  exact ⟨h.1, h.2.2.mp rfl⟩

/-- C6 (confirmed): whenever a receipt is obtained, the receipt effect
transitions the controller (whatever its current status) to `SUCCESS`
carrying the non-empty receipt list holding that receipt, the stored
charge identifier, and the receipt URL derived from the stored charge id
by the fixed template. -/
theorem receipt_unconditional_success (st : St) (r : Receipt) :
    receiptEffect (some r) st =
      { st with lifecycleStatus :=
          (LifecycleStatus.SUCCESS [r] st.chargeId
            ("https://commerce.coinbase.com/pay/" ++ st.chargeId ++ "/receipt")) }
    ∧ ([r] : List Receipt) ≠ []
    ∧ r ∈ ([r] : List Receipt) :=
  ⟨rfl, by simp, by simp⟩

/-- C7 (confirmed): for every collaborator behaviour, `handleSubmit`
returns an ordinary result (its type has no exception component), and
whenever the try block is escaped by an exception the final status is
`ERROR`: every failure is converted, none propagates. -/
theorem submit_never_throws (env : Env) (st : St) :
    (tryBlock env st).thrown = none ∨
      (handleSubmit env st).state.lifecycleStatus.statusName = StatusName.ERROR := by
  cases h : (tryBlock env st).thrown with
  | none => exact Or.inl rfl
  | some e =>
    refine Or.inr ?_
    have he : handleSubmit env st =
        catchBlock (tryBlock env st).state (tryBlock env st).events e := by
      simp only [handleSubmit]
      rw [h]
    rw [he]
    cases hc : isUserRejectedCatch e <;>
      simp [catchBlock, hc, LifecycleStatus.statusName]

/-- C8 counterexample: from a concrete `SUCCESS` state, a pending
notification from the batch-submission service still transitions the
lifecycle to `PENDING`: the echo carries no guard on the current
lifecycle status, so "only if not already past that point" fails. -/
theorem pending_echo_guard_cex :
    stSuccessFix.lifecycleStatus.statusName = StatusName.SUCCESS
    ∧ (pendingEchoEffect WriteStatus.pending stSuccessFix).lifecycleStatus =
        LifecycleStatus.PENDING :=
  ⟨rfl, rfl⟩

/-- C8 (amended): when the batch-submission service reports pending, the
controller transitions to `PENDING` unconditionally, with no guard on the
current lifecycle status; the echo is idempotent — a repeated pending
notification leaves the state unchanged. -/
theorem pending_echo_unguarded_idempotent (st : St) :
    pendingEchoEffect WriteStatus.pending st =
      { st with lifecycleStatus := LifecycleStatus.PENDING }
    ∧ pendingEchoEffect WriteStatus.pending
        (pendingEchoEffect WriteStatus.pending st) =
      pendingEchoEffect WriteStatus.pending st :=
  ⟨rfl, rfl⟩

/-- C9 counterexample: from a concrete `ERROR` state, the pending echo
reverts the lifecycle to the earlier `PENDING` state without any fresh
submit attempt, so monotonicity of `SUCCESS`/`ERROR` fails against the
asynchronous side transitions. -/
theorem monotonicity_violated_by_pending_echo_cex :
    stErrorFix.lifecycleStatus.statusName = StatusName.ERROR
    ∧ (pendingEchoEffect WriteStatus.pending stErrorFix).lifecycleStatus.statusName =
        StatusName.PENDING :=
  ⟨rfl, rfl⟩

/-- C9 (amended): the receipt-driven side transition never reverts the
lifecycle to an earlier state — with a receipt it always produces
`SUCCESS` and without one it changes nothing — but the pending echo is
unguarded: it sets `PENDING` from every state, including `SUCCESS` and
`ERROR`, so those statuses are not preserved against it. -/
theorem side_transitions_monotonicity_amended (st : St) (r : Receipt) :
    (receiptEffect (some r) st).lifecycleStatus.statusName = StatusName.SUCCESS
    ∧ receiptEffect none st = st
    ∧ (pendingEchoEffect WriteStatus.pending st).lifecycleStatus.statusName =
        StatusName.PENDING :=
  ⟨rfl, rfl, rfl⟩

/-- C10 (confirmed): when hydration reports `insufficientBalance=true`
but no price, a fresh submit attempt does not take the
insufficient-balance abort: it proceeds to the contracts check and, with a
non-empty contracts list, invokes the batch-submission service on those
calls, and the resulting status is never `INSUFFICIENT_BALANCE`. -/
theorem insufficient_balance_without_price_proceeds (env : Env) (st : St)
    (a : String) (cid : Nat) (fr : FetchRes) (cs : List Contract)
    (hS : st.lifecycleStatus.statusName ≠ StatusName.SUCCESS)
    (hE : st.lifecycleStatus.errorCode ≠ some PayErrorCode.INSUFFICIENT_BALANCE)
    (hConn : resolveConnection env = Except.ok (some a, cid))
    (hFetch : env.fetchContracts a = Except.ok fr)
    (hNoErr : fr.error = none)
    (hIB : fr.insufficientBalance = true)
    (hP : fr.priceInUSDC = none)
    (hSwitch : cid ≠ baseChainId → env.switchChainAsync baseChainId = Except.ok ())
    (hC : fr.contracts = some cs)
    (hcs : cs ≠ []) :
    Ev.writeCall cs ∈ (handleSubmit env st).events
    ∧ (handleSubmit env st).state.lifecycleStatus.errorCode ≠
        some PayErrorCode.INSUFFICIENT_BALANCE := by
  cases cs with
  | nil => exact absurd rfl hcs
  | cons c cst =>
    have h1 : tryBlock env st =
        submitContracts env { st with chargeId := fr.chargeId }
          (connectEvents env ++ [Ev.hydrateCall a] ++
            (if cid ≠ baseChainId then [Ev.switchCall baseChainId] else []))
          (some (c :: cst)) := by
      rw [(tryBlock_fresh env st hS hE).trans
        ((freshAttempt_hydrated env st a cid fr hConn hFetch hNoErr).trans
          (afterHydration_switch_ok env st _ cid fr hSwitch))]
      simp only [balanceCheckAndSubmit, hIB, hP, hC]
    cases hw : env.writeContractsAsync (c :: cst) with
    | ok txid =>
      have h2 : tryBlock env st =
          { state := { st with chargeId := fr.chargeId, transactionId := txid },
            events := connectEvents env ++ [Ev.hydrateCall a] ++
              (if cid ≠ baseChainId then [Ev.switchCall baseChainId] else []) ++
              [Ev.writeCall (c :: cst)],
            thrown := none } := by
        rw [h1]
        simp only [submitContracts, hw]
      have h3 := handleSubmit_eq_of_tryBlock_none env st _ _ h2
      constructor
      · rw [h3]
        simp
      · rw [h3]
        exact hE
    | error e =>
      have h2 : tryBlock env st =
          { state := { st with chargeId := fr.chargeId },
            events := connectEvents env ++ [Ev.hydrateCall a] ++
              (if cid ≠ baseChainId then [Ev.switchCall baseChainId] else []) ++
              [Ev.writeCall (c :: cst)],
            thrown := some e } := by
        rw [h1]
        simp only [submitContracts, hw]
      have h3 := handleSubmit_eq_of_tryBlock_some env st _ _ e h2
      constructor
      · rw [h3]
        simp [catchBlock]
      · rw [h3]
        cases hc : isUserRejectedCatch e <;>
          simp [catchBlock, hc, LifecycleStatus.errorCode]

/-- C10 witness: the theorem evaluated on a concrete environment
reporting insufficient balance without a price; the batch submission is
invoked nonetheless. -/
theorem insufficient_balance_without_price_proceeds_witness :
    Ev.writeCall ["call-1"] ∈ (handleSubmit envC10 initSt).events
    ∧ (handleSubmit envC10 initSt).state.lifecycleStatus.errorCode ≠
        some PayErrorCode.INSUFFICIENT_BALANCE :=
  insufficient_balance_without_price_proceeds envC10 initSt "0xabc" 8453 frC10
    ["call-1"] (by decide) (by decide) rfl rfl rfl rfl rfl
    (fun hc => absurd rfl hc) rfl (by decide)

end PayLifecycle
